import Mathlib

/-!
Verification of `superpyrate/pipeline.py`.

Paths and other Python strings are modelled as `List Char`; SQL statement
construction (pure string formatting) is modelled with Lean `String`.
Database side effects are modelled as explicit operation traces on a single
connection, with a small-step visibility semantics (`applyOp`) separating
staged (uncommitted) work from committed work.
-/

namespace Superpyrate

/-! ## Embedding of the `os.path` (posixpath) primitives used by the pipeline -/

/-- `os.path.basename(p)`: everything after the last slash (`p[p.rfind(sep)+1:]`). -/
def basename (p : List Char) : List Char :=
  (p.reverse.takeWhile (fun c => c ≠ '/')).reverse

/-- `os.path.dirname(p)`: `head = p[:p.rfind(sep)+1]`, then trailing slashes are
stripped unless `head` consists only of slashes. -/
def dirname (p : List Char) : List Char :=
  let head := (p.reverse.dropWhile (fun c => c ≠ '/')).reverse
  if head ≠ [] ∧ head.any (fun c => c ≠ '/') then
    (head.reverse.dropWhile (fun c => c = '/')).reverse
  else head

/-- `os.path.splitext(p)`: split the extension at the last dot of the final
path component; leading dots of that component never start an extension
(CPython `genericpath._splitext` with `sep='/'`, `extsep='.'`). -/
def splitext (p : List Char) : List Char × List Char :=
  let dir := (p.reverse.dropWhile (fun c => c ≠ '/')).reverse
  let base := (p.reverse.takeWhile (fun c => c ≠ '/')).reverse
  let dots := base.takeWhile (fun c => c = '.')
  let rest := base.dropWhile (fun c => c = '.')
  if rest.any (fun c => c = '.') then
    let extRev := rest.reverse.takeWhile (fun c => c ≠ '.')
    let beforeRev := (rest.reverse.dropWhile (fun c => c ≠ '.')).drop 1
    (dir ++ dots ++ beforeRev.reverse, '.' :: extRev.reverse)
  else (p, [])

/-- The extension part `os.path.splitext(p)[1]`. -/
def extension (p : List Char) : List Char := (splitext p).2

/-- `os.path.join(a, b)` for a relative second component (posixpath two-argument
case): absolute `b` wins; otherwise a separator is inserted unless `a` is empty
or already ends with one. -/
def pyJoin (a b : List Char) : List Char :=
  if b.head? = some '/' then b
  else if a = [] ∨ a.getLast? = some '/' then a ++ b
  else a ++ '/' :: b

/-- `str.rstrip(c)`: remove all trailing occurrences of `c`. -/
def rstrip (s : List Char) (c : Char) : List Char :=
  (s.reverse.dropWhile (fun x => x = c)).reverse

/-- Boolean test used by the discovery loops:
`os.path.splitext(entry)[1] == ext`. -/
def hasExt (ext : List Char) (e : List Char) : Bool :=
  decide ((splitext e).2 = ext)

-- Sanity checks of the path embedding against CPython behaviour.
example : splitext "a1.csv".toList = ("a1".toList, ".csv".toList) := by decide
example : splitext ".csv".toList = (".csv".toList, []) := by decide
example : splitext "a.b.c".toList = ("a.b".toList, ".c".toList) := by decide
example : splitext "/x/..a.b".toList = ("/x/..a".toList, ".b".toList) := by decide
example : splitext "/x.y/c".toList = ("/x.y/c".toList, []) := by decide
example : basename "/a/b/a1.csv".toList = "a1.csv".toList := by decide
example : dirname "/a/b/c".toList = "/a/b".toList := by decide
example : dirname "/a".toList = "/".toList := by decide
example : dirname "a".toList = [] := by decide
example : dirname "/tests/fixtures/testais/".toList = "/tests/fixtures/testais".toList := by
  decide
example : pyJoin "/u/z".toList "a.csv".toList = "/u/z/a.csv".toList := by decide

/-! ## Python errors and local-variable semantics -/

/-- The Python exceptions the embedded fragments can raise. -/
inductive PyErr
  | unboundLocalError (name : String)
  | runtimeError (msg : String)
  deriving DecidableEq, Repr

/-- Evaluating a local variable in Python: an error of type
`UnboundLocalError` (a subclass of `NameError`) when the name has not been
assigned yet in the current scope. -/
def pyLoadLocal (locals : List (String × List Char)) (name : String) :
    Except PyErr (List Char) :=
  match locals.lookup name with
  | some v => Except.ok v
  | none => Except.error (PyErr.unboundLocalError name)

/-! ## Configuration helpers (`pipeline.py` lines 140-175)

The process environment is modelled as a partial map from variable names to
values. -/

/-- Embedding of `get_environment_variable` (lines 140-150): `os.environ[name]`
with the `KeyError` handled by logging and substituting the empty string.  The
function is total: the absent case is caught, never propagated. -/
def get_environment_variable (env : String → Option (List Char)) (name : String) :
    List Char :=
  match env name with
  | some envvar => envvar
  | none => []

/-- Embedding of `get_working_folder` (lines 153-175): return `LUIGIWORK` when
it is truthy (a non-empty string); otherwise require `folder_of_zips` and take
`os.path.dirname(os.path.dirname(folder_of_zips))`; with neither available,
raise `RuntimeError`. -/
def get_working_folder (env : String → Option (List Char))
    (folder_of_zips : Option (List Char)) : Except PyErr (List Char) :=
  let environment_variable := get_environment_variable env "LUIGIWORK"
  if environment_variable ≠ [] then
    Except.ok environment_variable
  else
    match folder_of_zips with
    | none => Except.error (PyErr.runtimeError "No working folder defined")
    | some f => Except.ok (dirname (dirname f))

/-! ## `GetFolderOfArchives.run` (lines 192-194)

The body is
```
assert isinstance(folder_of_zips, str)
folder_of_zips = folder_of_zips.rstrip("\x5c\x5c")
```
Because `folder_of_zips` is assigned inside the body, Python compiles it as a
local variable of `run` for the whole function; at the first statement it is
still unbound, so evaluating it raises `UnboundLocalError` (a `NameError`).
The parameter below stands for `self.folder_of_zips`, which the body never
reads. -/
def getFolderOfArchives_run (self_folder_of_zips : List Char) :
    Except PyErr (List Char) := do
  let v ← pyLoadLocal [] "folder_of_zips"
  let _ := self_folder_of_zips
  Except.ok (rstrip v '\\')

/-! ## Database connection model

`ValidMessagesToDatabase.run` and `LoadCleanedAIS.run` act on a single
psycopg2 connection.  We record the operations performed on that connection as
a trace, and give the trace a visibility semantics: work done through cursors
(`COPY`, the marker insert of `touch`) stays staged until `commit` publishes
all of it atomically; `reset` and `close` discard staged work. -/

/-- One CSV row streamed by `COPY`. -/
abbrev Row := List String

/-- Operations performed on the ingest connection. -/
inductive DbOp
  | copyRows (rows : List Row)
  | copyFail
  | reset
  | createTable
  | touch
  | commit
  | close
  deriving DecidableEq, Repr

/-- psycopg2 error classification relevant to the retry loop: `pgcode` equal
to `UNDEFINED_TABLE` or anything else. -/
inductive PgCode
  | undefinedTable
  | otherCode
  deriving DecidableEq, Repr

/-- Outcome of one `self.copy(cursor, csvfile)` attempt: success, a
`psycopg2.ProgrammingError` carrying a `pgcode`, or any other exception
(which the `except ProgrammingError` clause does not catch). -/
inductive CopyOutcome
  | ok
  | progError (code : PgCode)
  | otherError
  deriving DecidableEq, Repr

/-- Connection state: committed (visible) rows and marker, plus staged
uncommitted work and whether the destination table exists. -/
structure ConnState where
  committedRows : List Row
  committedMarker : Bool
  stagedRows : List Row
  stagedMarker : Bool
  tableExists : Bool
  deriving DecidableEq, Repr

/-- A fresh connection against a database holding no rows for this file and
no completion marker for this task. -/
def conn0 : ConnState :=
  { committedRows := [], committedMarker := false,
    stagedRows := [], stagedMarker := false, tableExists := true }

/-- Visibility semantics of one connection operation.  A failed `COPY` stages
nothing durable; `connection.reset()` rolls the transaction back; `commit`
publishes the staged rows and staged marker together; `close` without commit
discards staged work. -/
def applyOp (s : ConnState) : DbOp → ConnState
  | DbOp.copyRows rs => { s with stagedRows := s.stagedRows ++ rs }
  | DbOp.copyFail => s
  | DbOp.reset => { s with stagedRows := [], stagedMarker := false }
  | DbOp.createTable => { s with tableExists := true }
  | DbOp.touch => { s with stagedMarker := true }
  | DbOp.commit =>
      { s with committedRows := s.committedRows ++ s.stagedRows,
               committedMarker := s.committedMarker || s.stagedMarker,
               stagedRows := [], stagedMarker := false }
  | DbOp.close => { s with stagedRows := [], stagedMarker := false }

/-- The committed (externally visible) part of the connection state reached by
running a trace from `conn0`: the rows of this file and this task's marker. -/
def committedView (ops : List DbOp) : List Row × Bool :=
  let s := ops.foldl applyOp conn0
  (s.committedRows, s.committedMarker)

/-! ## `ValidMessagesToDatabase.run` (lines 379-414)

The body is the two-attempt loop
```
for attempt in range(2):
    try:
        cursor = connection.cursor()
        self.copy(cursor, csvfile)
    except psycopg2.ProgrammingError as e:
        if e.pgcode == psycopg2.errorcodes.UNDEFINED_TABLE and attempt == 0:
            connection.reset()
            self.create_table(connection)
        else:
            raise
    else:
        break
self.output().touch(connection)
connection.commit()
connection.close()
```
parametrised by the outcome of the copy on each attempt (`o0`, `o1`) and the
rows a successful copy streams in.  The result is the trace of connection
operations paired with the run's result: `Except.error o` when the loop
re-raises outcome `o` (so `touch`/`commit`/`close` never execute), `ok` when
the body returns.  (`touch(connection)` inserts the marker row through the
given connection without committing it.) -/
def vmdbRun (o0 o1 : CopyOutcome) (rows : List Row) :
    List DbOp × Except CopyOutcome Unit :=
  match o0 with
  | CopyOutcome.ok =>
      ([DbOp.copyRows rows, DbOp.touch, DbOp.commit, DbOp.close], Except.ok ())
  | CopyOutcome.progError PgCode.undefinedTable =>
      match o1 with
      | CopyOutcome.ok =>
          ([DbOp.copyFail, DbOp.reset, DbOp.createTable, DbOp.copyRows rows,
            DbOp.touch, DbOp.commit, DbOp.close], Except.ok ())
      | o =>
          ([DbOp.copyFail, DbOp.reset, DbOp.createTable, DbOp.copyFail],
           Except.error o)
  | CopyOutcome.progError PgCode.otherCode =>
      ([DbOp.copyFail], Except.error (CopyOutcome.progError PgCode.otherCode))
  | CopyOutcome.otherError =>
      ([DbOp.copyFail], Except.error CopyOutcome.otherError)

/-- The connection trace of a run. -/
def vmdbTrace (o0 o1 : CopyOutcome) (rows : List Row) : List DbOp :=
  (vmdbRun o0 o1 rows).1

/-- Number of `COPY` attempts (successful or failed) in a trace. -/
def copyAttemptCount (tr : List DbOp) : Nat :=
  tr.countP fun op =>
    match op with
    | DbOp.copyRows _ => true
    | DbOp.copyFail => true
    | _ => false

/-- Number of `self.create_table` calls in a trace. -/
def createTableCount (tr : List DbOp) : Nat :=
  tr.countP fun op =>
    match op with
    | DbOp.createTable => true
    | _ => false

/-! ## `ValidMessagesToDatabase` SQL (lines 343-347 and 367-377) -/

/-- Python `str.lower()`, character by character.  `Char.toLower` lowers the
ASCII range, which coincides with CPython on the ASCII-only identifiers this
pipeline lowers (column names, table names). -/
def pyLower (s : String) : String := String.mk (s.data.map Char.toLower)

/-- The class attribute `cols` (lines 343-346). -/
def vmdb_cols : List String :=
  ["MMSI", "Time", "Message_ID", "Navigational_status", "SOG",
   "Longitude", "Latitude", "COG", "Heading", "IMO", "Draught",
   "Destination", "Vessel_Name",
   "ETA_month", "ETA_day", "ETA_hour", "ETA_minute"]

/-- `columns = [x.lower() for x in cols]` (line 347). -/
def vmdb_columns : List String := vmdb_cols.map pyLower

/-- The SQL built by `copy` (line 375).  `columns[0]` is a string, so
`column_names = self.columns`; the third `format` argument (`clean_file`) has
no placeholder in the template and is dropped.  The table attribute is
`"ais_clean"`, but the statement is built from `self.table` generically. -/
def vmdb_copySql (table : String) : String :=
  "COPY " ++ table ++ " (" ++ String.intercalate "," vmdb_columns ++
    ") FROM STDIN WITH (FORMAT csv, HEADER true)"

/-! ## `ProcessCsv.run` (lines 258-268) -/

/-- A dynamically spawned child of `ProcessCsv`: a `ValidMessages` task on one
csv path. -/
inductive CsvChild
  | validMessages (csvfilepath : List Char)
  deriving DecidableEq, Repr

/-- Embedding of `ProcessCsv.run`: walk the entries of the extracted
directory, keep those with extension `.csv`, join each to the directory path,
yield one `ValidMessages` child per kept path, and write the newline-joined
path list as the manifest. -/
def processCsv_run (inputDir : List Char) (entries : List (List Char)) :
    List CsvChild × List Char :=
  let list_of_csvpaths :=
    (entries.filter (hasExt ".csv".toList)).map (fun e => pyJoin inputDir e)
  (list_of_csvpaths.map CsvChild.validMessages,
   List.intercalate ['\n'] list_of_csvpaths)

/-! ## `LoadCleanedAIS.run` (lines 441-463) -/

/-- The `source_data` dictionary inserted into `ais_sources`. -/
structure SourceRow where
  filename : List Char
  ext : List Char
  invalid : Nat
  clean : Nat
  dirty : Nat
  source : Nat
  deriving DecidableEq, Repr

/-- Operations `LoadCleanedAIS.run` performs on its connection. -/
inductive ProvOp
  | insertSource (r : SourceRow)
  | touch
  | commit
  | close
  deriving DecidableEq, Repr

/-- Embedding of `LoadCleanedAIS.run`: build `source_data` from the csv path
(basename, extension, zeroed counters), execute one INSERT through a cursor of
the connection, `touch` the marker on the same connection, then commit once
and close. -/
def loadCleanedAIS_run (csvfile : List Char) : List ProvOp :=
  let source_data : SourceRow :=
    { filename := basename csvfile,
      ext := (splitext csvfile).2,
      invalid := 0, clean := 0, dirty := 0, source := 0 }
  [ProvOp.insertSource source_data, ProvOp.touch, ProvOp.commit, ProvOp.close]

/-! ## `ProcessZipArchives.run` (lines 510-532) -/

/-- A dynamically spawned child of `ProcessZipArchives`: depending on
`with_db`, a `WriteCsvToDb` or a `ProcessCsv` chain on one archive. -/
inductive ArchiveChild
  | writeCsvToDb (arc : List Char)
  | processCsvTask (arc : List Char)
  deriving DecidableEq, Repr

/-- The archive path a child was spawned for. -/
def archiveOf : ArchiveChild → List Char
  | ArchiveChild.writeCsvToDb a => a
  | ArchiveChild.processCsvTask a => a

/-- Embedding of `ProcessZipArchives.run`: filter the listed entries down to
those with extension `.zip` and spawn one child per archive, but write to the
manifest one line per entry of the *unfiltered* listing
(`outfile.write(arc + newline)` for every `arc in list_of_archives`). -/
def processZipArchives_run (with_db : Bool) (entries : List (List Char)) :
    List ArchiveChild × List Char :=
  let archives := entries.filter (hasExt ".zip".toList)
  let children :=
    if with_db then archives.map ArchiveChild.writeCsvToDb
    else archives.map ArchiveChild.processCsvTask
  (children, (entries.map (fun arc => arc ++ ['\n'])).flatten)

/-- Split a character stream into newline-terminated lines (a `'\n'` closes
the current line; a final unterminated segment forms a last line). -/
def splitLines : List Char → List (List Char)
  | [] => []
  | c :: rest =>
    if c = '\n' then [] :: splitLines rest
    else
      match splitLines rest with
      | [] => [[c]]
      | l :: ls => (c :: l) :: ls

/-! ## `MakeAllIndices.run` (lines 583-614) -/

/-- The queries built by `MakeAllIndices.run` from the table name and the
index specification list fetched from the external `pyrate` table spec: for
each `(idx, cols)` pair, an index name `self.table.lower() + "_" + idx`, a
`CREATE INDEX ... USING btree` statement quoting each lower-cased column, and
an update id `MakeAllIndices + idxn`. -/
def makeAllIndices_queries (table : String)
    (indices : List (String × List String)) : List (String × String) :=
  indices.map fun p =>
    let idxn := pyLower table ++ "_" ++ p.1
    ("CREATE INDEX \"" ++ idxn ++ "\" ON \"" ++ table ++ "\" USING btree (" ++
       String.intercalate "," (p.2.map (fun s => "\"" ++ pyLower s ++ "\"")) ++
       ")",
     "MakeAllIndices" ++ idxn)

/-- Embedding of `MakeAllIndices.run`: the index list is only available for
the tables `ais_clean` and `ais_dirty` (any other table name raises before
any query is built); one `RunQueryOnTable` child is yielded per query. -/
def makeAllIndices_run (table : String)
    (indices : List (String × List String)) :
    Except PyErr (List (String × String)) :=
  if table = "ais_clean" ∨ table = "ais_dirty" then
    Except.ok (makeAllIndices_queries table indices)
  else
    Except.error (PyErr.runtimeError "Table not implemented or incorrect")

/-! ## Helper lemmas -/

/-- A line without a newline followed by a terminating newline splits off as
one whole line. -/
theorem splitLines_terminated (e rest : List Char) (h : ('\n') ∉ e) :
    splitLines (e ++ '\n' :: rest) = e :: splitLines rest := by
  induction e with
  | nil => simp [splitLines]
  | cons c e ih =>
    have hc : ¬ c = '\n' := fun hc => h (hc ▸ List.mem_cons_self c e)
    have he : ('\n') ∉ e := fun hm => h (List.mem_cons_of_mem c hm)
    simp [splitLines, hc, ih he]

/-- Splitting the concatenation of newline-terminated lines recovers exactly
the original line list. -/
theorem splitLines_flatten (entries : List (List Char))
    (h : ∀ e ∈ entries, ('\n') ∉ e) :
    splitLines ((entries.map (fun arc => arc ++ ['\n'])).flatten) = entries := by
  induction entries with
  | nil => rfl
  | cons e es ih =>
    simp only [List.map_cons, List.flatten_cons, List.append_assoc,
      List.singleton_append]
    rw [splitLines_terminated e _ (h e (List.mem_cons_self e es))]
    rw [ih fun x hx => h x (List.mem_cons_of_mem e hx)]

/-! ## Claim theorems -/

/-- C7: `get_environment_variable` is total: when the variable is absent from
the environment it logs and returns the empty string instead of letting the
`KeyError` escape, and when the variable is present it returns its value
unchanged. -/
theorem get_environment_variable_total (env : String → Option (List Char))
    (name : String) :
    get_environment_variable env name = (env name).getD [] := by
  unfold get_environment_variable
  cases env name <;> rfl

/-- C10: `get_working_folder` returns `LUIGIWORK` whenever it is set and
non-empty, ignoring its argument; when `LUIGIWORK` is unset or empty it raises
`RuntimeError` if `folder_of_zips` is `None`, and otherwise returns the
grandparent directory (`dirname` of `dirname`) of `folder_of_zips`. -/
theorem get_working_folder_spec (env : String → Option (List Char))
    (fz : Option (List Char)) :
    (∀ v, env "LUIGIWORK" = some v → v ≠ [] →
        get_working_folder env fz = Except.ok v) ∧
    ((env "LUIGIWORK").getD [] = [] → fz = none →
        get_working_folder env fz =
          Except.error (PyErr.runtimeError "No working folder defined")) ∧
    ((env "LUIGIWORK").getD [] = [] → ∀ f, fz = some f →
        get_working_folder env fz = Except.ok (dirname (dirname f))) := by
  refine ⟨?_, ?_, ?_⟩
  · intro v hv hne
    unfold get_working_folder get_environment_variable
    rw [hv]
    simp [hne]
  · intro hempty hfz
    unfold get_working_folder get_environment_variable
    cases henv : env "LUIGIWORK" with
    | none => simp [hfz]
    | some v =>
      rw [henv] at hempty
      simp at hempty
      simp [hempty, hfz]
  · intro hempty f hfz
    unfold get_working_folder get_environment_variable
    cases henv : env "LUIGIWORK" with
    | none => simp [hfz]
    | some v =>
      rw [henv] at hempty
      simp at hempty
      simp [hempty, hfz]

/-- Witness for C10: concrete environments exercising all three branches,
including a concrete grandparent-directory computation. -/
theorem get_working_folder_spec_witness :
    get_working_folder (fun _ => some "/work".toList) (some "/a/b/c".toList) =
      Except.ok "/work".toList ∧
    get_working_folder (fun _ => none) none =
      Except.error (PyErr.runtimeError "No working folder defined") ∧
    get_working_folder (fun _ => none) (some "/tests/fixtures/testais/".toList) =
      Except.ok "/tests/fixtures".toList := by
  refine ⟨(get_working_folder_spec _ _).1 "/work".toList rfl (by decide),
          (get_working_folder_spec _ _).2.1 rfl rfl, ?_⟩
  have h := (get_working_folder_spec (fun _ => none)
      (some "/tests/fixtures/testais/".toList)).2.2 rfl
      "/tests/fixtures/testais/".toList rfl
  rw [h]
  rw [show dirname (dirname "/tests/fixtures/testais/".toList) =
        "/tests/fixtures".toList from by decide]

/-- C8: the body of `GetFolderOfArchives.run` evaluates the unbound local
name `folder_of_zips` in its first statement, so it raises
`UnboundLocalError` (a `NameError`) before doing anything else, for every
value of `self.folder_of_zips`; the body can never complete successfully. -/
theorem getFolderOfArchives_run_raises (p : List Char) :
    getFolderOfArchives_run p =
      Except.error (PyErr.unboundLocalError "folder_of_zips") := rfl

/-- C4: the bulk-load statement built by `ValidMessagesToDatabase.copy` is
exactly `COPY <table> (<col1>,...,<col17>) FROM STDIN WITH (FORMAT csv,
HEADER true)`, with the fixed ordered 17-column list all lower-cased. -/
theorem vmdb_copySql_spec (table : String) :
    vmdb_columns =
      ["mmsi", "time", "message_id", "navigational_status", "sog",
       "longitude", "latitude", "cog", "heading", "imo", "draught",
       "destination", "vessel_name",
       "eta_month", "eta_day", "eta_hour", "eta_minute"] ∧
    vmdb_columns.length = 17 ∧
    vmdb_copySql table =
      "COPY " ++ table ++ " (" ++
        "mmsi,time,message_id,navigational_status,sog,longitude,latitude,cog,heading,imo,draught,destination,vessel_name,eta_month,eta_day,eta_hour,eta_minute" ++
        ") FROM STDIN WITH (FORMAT csv, HEADER true)" := by
  refine ⟨by decide, by decide, ?_⟩
  unfold vmdb_copySql
  rw [show String.intercalate "," vmdb_columns =
    "mmsi,time,message_id,navigational_status,sog,longitude,latitude,cog,heading,imo,draught,destination,vessel_name,eta_month,eta_day,eta_hour,eta_minute"
    from by decide]

/-- C5: a successful `LoadCleanedAIS.run` on any csv path performs exactly one
insert into `ais_sources`, whose row has the path's basename as filename, the
path's extension (dot included) as ext, and all four counters zero; the
completion marker is set on the same connection before the single commit. -/
theorem loadCleanedAIS_spec (csvfile : List Char) :
    ∃ r : SourceRow,
      loadCleanedAIS_run csvfile =
        [ProvOp.insertSource r, ProvOp.touch, ProvOp.commit, ProvOp.close] ∧
      r.filename = basename csvfile ∧
      r.ext = (splitext csvfile).2 ∧
      r.invalid = 0 ∧ r.clean = 0 ∧ r.dirty = 0 ∧ r.source = 0 ∧
      (loadCleanedAIS_run csvfile).countP
        (fun op => match op with | ProvOp.insertSource _ => true | _ => false)
        = 1 ∧
      (loadCleanedAIS_run csvfile).count ProvOp.commit = 1 := by
  refine ⟨_, rfl, rfl, rfl, rfl, rfl, rfl, rfl, rfl, rfl⟩

/-- C6: for tables the run accepts (`ais_clean`, `ais_dirty`; any other name
raises before building queries), `MakeAllIndices.run` emits exactly one child
per `(suffix, columns)` pair, whose statement is
`CREATE INDEX "<table>_<suffix>" ON "<table>" USING btree ("<col1>",...)`
with each column lower-cased and double-quoted. -/
theorem makeAllIndices_spec (table : String)
    (indices : List (String × List String))
    (h : table = "ais_clean" ∨ table = "ais_dirty") :
    makeAllIndices_run table indices =
      Except.ok (indices.map fun p =>
        ("CREATE INDEX \"" ++ (table ++ "_" ++ p.1) ++ "\" ON \"" ++ table ++
           "\" USING btree (" ++
           String.intercalate ","
             (p.2.map (fun s => "\"" ++ pyLower s ++ "\"")) ++ ")",
         "MakeAllIndices" ++ (table ++ "_" ++ p.1))) := by
  rcases h with h | h <;> subst h <;>
    simp [makeAllIndices_run, makeAllIndices_queries,
      show pyLower "ais_clean" = "ais_clean" from by decide,
      show pyLower "ais_dirty" = "ais_dirty" from by decide]

/-- Witness for C6: the index fan-out for `ais_clean` with one concrete
(suffix, columns) pair, fully evaluated. -/
theorem makeAllIndices_spec_witness :
    makeAllIndices_run "ais_clean" [("mmsi_idx", ["MMSI"])] =
      Except.ok
        [("CREATE INDEX \"ais_clean_mmsi_idx\" ON \"ais_clean\" USING btree (\"mmsi\")",
          "MakeAllIndicesais_clean_mmsi_idx")] := by
  rw [makeAllIndices_spec "ais_clean" [("mmsi_idx", ["MMSI"])] (Or.inl rfl)]
  exact congrArg Except.ok (by decide)

/-- C2: in `ValidMessagesToDatabase.run`, an undefined-table failure on the
first attempt resets the connection, creates the table, and retries the load
exactly once more; if that retry fails the error is raised with no further
retry and no second table creation; a first failure that is anything other
than a `ProgrammingError` with `pgcode = UNDEFINED_TABLE` is raised at once,
with no table creation and no retry. -/
theorem vmdb_retry_policy (o0 o1 : CopyOutcome) (rows : List Row) :
    (o0 = CopyOutcome.progError PgCode.undefinedTable →
       (∃ rest, vmdbTrace o0 o1 rows =
          [DbOp.copyFail, DbOp.reset, DbOp.createTable] ++ rest) ∧
       createTableCount (vmdbTrace o0 o1 rows) = 1 ∧
       copyAttemptCount (vmdbTrace o0 o1 rows) = 2) ∧
    (o0 = CopyOutcome.progError PgCode.undefinedTable → o1 ≠ CopyOutcome.ok →
       (vmdbRun o0 o1 rows).2 = Except.error o1) ∧
    (o0 ≠ CopyOutcome.ok → o0 ≠ CopyOutcome.progError PgCode.undefinedTable →
       (vmdbRun o0 o1 rows).2 = Except.error o0 ∧
       createTableCount (vmdbTrace o0 o1 rows) = 0 ∧
       copyAttemptCount (vmdbTrace o0 o1 rows) = 1) := by
  refine ⟨?_, ?_, ?_⟩
  · intro h0
    subst h0
    cases o1 with
    | ok => exact ⟨⟨_, rfl⟩, rfl, rfl⟩
    | progError c => exact ⟨⟨_, rfl⟩, rfl, rfl⟩
    | otherError => exact ⟨⟨_, rfl⟩, rfl, rfl⟩
  · intro h0 h1
    subst h0
    cases o1 with
    | ok => exact absurd rfl h1
    | progError c => rfl
    | otherError => rfl
  · intro h0 h1
    cases o0 with
    | ok => exact absurd rfl h0
    | progError c =>
      cases c with
      | undefinedTable => exact absurd rfl h1
      | otherCode => exact ⟨rfl, rfl, rfl⟩
    | otherError => exact ⟨rfl, rfl, rfl⟩

/-- Witness for C2: a failed retry after table creation raises that error
with exactly one table creation and two load attempts; a first failure that
is not an undefined-table `ProgrammingError` raises at once with no table
creation. -/
theorem vmdb_retry_policy_witness :
    (vmdbRun (CopyOutcome.progError PgCode.undefinedTable)
        CopyOutcome.otherError []).2 = Except.error CopyOutcome.otherError ∧
    createTableCount (vmdbTrace (CopyOutcome.progError PgCode.undefinedTable)
        CopyOutcome.otherError []) = 1 ∧
    copyAttemptCount (vmdbTrace (CopyOutcome.progError PgCode.undefinedTable)
        CopyOutcome.otherError []) = 2 ∧
    (vmdbRun CopyOutcome.otherError CopyOutcome.ok []).2 =
        Except.error CopyOutcome.otherError ∧
    createTableCount (vmdbTrace CopyOutcome.otherError CopyOutcome.ok []) = 0 := by
  have h := vmdb_retry_policy (CopyOutcome.progError PgCode.undefinedTable)
    CopyOutcome.otherError []
  have h2 := vmdb_retry_policy CopyOutcome.otherError CopyOutcome.ok []
  exact ⟨h.2.1 rfl (by decide), (h.1 rfl).2.1, (h.1 rfl).2.2,
         (h2.2.2 (by decide) (by decide)).1, (h2.2.2 (by decide) (by decide)).2.1⟩

/-- C1: every successful `ValidMessagesToDatabase.run` sets the completion
marker on the same connection as the data load and commits exactly once; the
marker and the loaded rows become visible together at that single commit, and
at every earlier point of the trace (a simulated crash before the commit)
neither is visible. -/
theorem vmdb_atomic_commit (o0 o1 : CopyOutcome) (rows : List Row)
    (h : (vmdbRun o0 o1 rows).2 = Except.ok ()) :
    (vmdbTrace o0 o1 rows).count DbOp.commit = 1 ∧
    (∃ pre, vmdbTrace o0 o1 rows = pre ++ [DbOp.touch, DbOp.commit, DbOp.close] ∧
       DbOp.touch ∉ pre ∧ DbOp.commit ∉ pre) ∧
    ∀ n, committedView ((vmdbTrace o0 o1 rows).take n) =
      (if DbOp.commit ∈ (vmdbTrace o0 o1 rows).take n then (rows, true)
       else ([], false)) := by
  cases o0 with
  | ok =>
    refine ⟨rfl, ⟨[DbOp.copyRows rows], rfl, by simp, by simp⟩, ?_⟩
    intro n
    match n with
    | 0 => simp [vmdbTrace, vmdbRun, committedView, conn0]
    | 1 => simp [vmdbTrace, vmdbRun, committedView, conn0, applyOp]
    | 2 => simp [vmdbTrace, vmdbRun, committedView, conn0, applyOp]
    | 3 => simp [vmdbTrace, vmdbRun, committedView, conn0, applyOp]
    | (m + 4) =>
      rw [List.take_of_length_le (by simp [vmdbTrace, vmdbRun])]
      simp [vmdbTrace, vmdbRun, committedView, conn0, applyOp]
  | progError c =>
    cases c with
    | undefinedTable =>
      cases o1 with
      | ok =>
        refine ⟨rfl, ⟨[DbOp.copyFail, DbOp.reset, DbOp.createTable,
          DbOp.copyRows rows], rfl, by simp, by simp⟩, ?_⟩
        intro n
        match n with
        | 0 => simp [vmdbTrace, vmdbRun, committedView, conn0]
        | 1 => simp [vmdbTrace, vmdbRun, committedView, conn0, applyOp]
        | 2 => simp [vmdbTrace, vmdbRun, committedView, conn0, applyOp]
        | 3 => simp [vmdbTrace, vmdbRun, committedView, conn0, applyOp]
        | 4 => simp [vmdbTrace, vmdbRun, committedView, conn0, applyOp]
        | 5 => simp [vmdbTrace, vmdbRun, committedView, conn0, applyOp]
        | 6 => simp [vmdbTrace, vmdbRun, committedView, conn0, applyOp]
        | (m + 7) =>
          rw [List.take_of_length_le (by simp [vmdbTrace, vmdbRun])]
          simp [vmdbTrace, vmdbRun, committedView, conn0, applyOp]
      | progError c1 => exact absurd h (by simp [vmdbRun])
      | otherError => exact absurd h (by simp [vmdbRun])
    | otherCode => exact absurd h (by simp [vmdbRun])
  | otherError => exact absurd h (by simp [vmdbRun])

/-- Witness for C1: a concrete successful run; before the commit neither the
rows nor the marker are visible, after it both are, and the trace commits
exactly once. -/
theorem vmdb_atomic_commit_witness :
    (vmdbTrace CopyOutcome.ok CopyOutcome.ok [["1", "r"]]).count DbOp.commit
        = 1 ∧
    committedView ((vmdbTrace CopyOutcome.ok CopyOutcome.ok [["1", "r"]]).take 2)
        = ([], false) ∧
    committedView ((vmdbTrace CopyOutcome.ok CopyOutcome.ok [["1", "r"]]).take 4)
        = ([["1", "r"]], true) := by
  have h := vmdb_atomic_commit CopyOutcome.ok CopyOutcome.ok [["1", "r"]] rfl
  refine ⟨h.1, ?_, ?_⟩
  · rw [h.2.2 2]
    decide
  · rw [h.2.2 4]
    decide

/-- C3: for a directory listing with N entries of extension `.csv` and any
number of other entries, `ProcessCsv.run` emits exactly N `ValidMessages`
children, one per matching file, and writes as its manifest the
newline-joined list of exactly those N joined paths. -/
theorem processCsv_fanout (dir : List Char) (entries : List (List Char)) :
    (processCsv_run dir entries).1.length =
        entries.countP (hasExt ".csv".toList) ∧
    (∀ c, c ∈ (processCsv_run dir entries).1 ↔
       ∃ e, e ∈ entries ∧ hasExt ".csv".toList e = true ∧
         c = CsvChild.validMessages (pyJoin dir e)) ∧
    (processCsv_run dir entries).2 =
      List.intercalate ['\n']
        ((entries.filter (hasExt ".csv".toList)).map (fun e => pyJoin dir e)) := by
  refine ⟨?_, ?_, rfl⟩
  · simp [processCsv_run, List.countP_eq_length_filter]
  · intro c
    simp only [processCsv_run, List.mem_map, List.mem_filter]
    constructor
    · rintro ⟨p, ⟨e, ⟨he, hcsv⟩, rfl⟩, rfl⟩
      exact ⟨e, he, hcsv, rfl⟩
    · rintro ⟨e, he, hcsv, rfl⟩
      exact ⟨pyJoin dir e, ⟨e, ⟨he, hcsv⟩, rfl⟩, rfl⟩

/-- C9: `ProcessZipArchives.run` spawns one child chain per `.zip` entry
only, but writes one manifest line for every entry of the listed folder; with
at least one non-`.zip` entry present, the manifest is therefore not the list
of spawned children. -/
theorem processZipArchives_manifest_mismatch (with_db : Bool)
    (entries : List (List Char))
    (hnl : ∀ e ∈ entries, ('\n') ∉ e)
    (hsome : ∃ e ∈ entries, hasExt ".zip".toList e = false) :
    (processZipArchives_run with_db entries).1.map archiveOf =
        entries.filter (hasExt ".zip".toList) ∧
    splitLines (processZipArchives_run with_db entries).2 = entries ∧
    (processZipArchives_run with_db entries).1.map archiveOf ≠
        splitLines (processZipArchives_run with_db entries).2 := by
  have h1 : (processZipArchives_run with_db entries).1.map archiveOf =
      entries.filter (hasExt ".zip".toList) := by
    cases with_db <;>
      simp [processZipArchives_run, archiveOf, List.map_map, Function.comp_def]
  have h2 : splitLines (processZipArchives_run with_db entries).2 = entries :=
    splitLines_flatten entries hnl
  refine ⟨h1, h2, ?_⟩
  rw [h1, h2]
  intro heq
  obtain ⟨e, he, hz⟩ := hsome
  have hlt : (entries.filter (hasExt ".zip".toList)).length < entries.length :=
    List.length_filter_lt_length_iff_exists.mpr ⟨e, he, by simpa using hz⟩
  exact absurd (congrArg List.length heq) (Nat.ne_of_lt hlt)

/-- Witness for C9: a folder containing `a.zip` and `notes.txt`; the spawned
children and the manifest lines differ. -/
theorem processZipArchives_manifest_mismatch_witness :
    (processZipArchives_run true ["a.zip".toList, "notes.txt".toList]).1.map
        archiveOf ≠
      splitLines (processZipArchives_run true
        ["a.zip".toList, "notes.txt".toList]).2 := by
  have h := processZipArchives_manifest_mismatch true
    ["a.zip".toList, "notes.txt".toList] (by decide)
    ⟨"notes.txt".toList, by decide, by decide⟩
  exact h.2.2

end Superpyrate
